import Mathlib

/-!
Verification development for the gastown failure-recovery and
priority-scheduling core.

Part 1 embeds `internal/witness/circuit_breaker.go`: the circuit-breaker
evaluation cycle (`CheckCircuitBreakers`), the per-agent isolation sequence
(`processTrippedCircuit`), the notification builders (`sendWorkRequeue`,
`escalateTrippedCircuit`) and `extractPolecatName`.  External collaborators
(the mail router and `AutoNukeIfClean`, whose implementations live outside
this package) are modelled as oracle parameters; sent messages and the
termination attempt are recorded explicitly in the outcome so invariants
about them can be stated.

Part 2 models the components whose implementations are not in the source
tree but whose tests and the specification fix their behaviour: the
refinery score function (`ScoreMR`), the work-requeue message parser
(`ParseWorkRequeue`) and the beads failure counter
(`IncrementAgentFailureCount`).  Go `float64` arithmetic is modelled
over `ℚ`; timestamps are rational numbers of hours.
-/

namespace Gastown

/-- Agent description fields, from `beads.AgentFields`
(`circuit_breaker.go` reads `RoleType`, `Rig`, `CircuitState`,
`FailureCount`, `HookBead`, `CleanupStatus`). -/
structure AgentFields where
  roleType : String
  rig : String
  hookBead : String
  cleanupStatus : String
  failureCount : Nat
  circuitState : String
deriving DecidableEq, Repr

/-- `CircuitBreakerResult` from `circuit_breaker.go` lines 34-44.
The Go `error` field is modelled as `Option String`. -/
structure CircuitBreakerResult where
  polecatName : String
  agentBeadID : String
  circuitState : String
  failureCount : Nat
  action : String
  wispID : String
  mailSent : String
  error : Option String
deriving DecidableEq, Repr

/-- `mail.Message` as built by this file: sender, recipient, subject,
priority tier, type and body.  (`From`/`To` are renamed since `from` is a
Lean keyword.) -/
structure Message where
  fromAddr : String
  toAddr : String
  subject : String
  priority : String
  mtype : String
  body : String
deriving DecidableEq, Repr

/-- The mail router collaborator: `Send` either fails with an error or
succeeds, assigning the message an ID (`msg.ID` in Go).  A `nil` router is
modelled as `Option.none` at use sites. -/
structure Router where
  sendResult : Message → Except String String

/-- Result of the `AutoNukeIfClean` lifecycle collaborator (defined outside
`circuit_breaker.go`): whether the polecat was nuked, the blocking reason,
and an error. -/
structure NukeResult where
  nuked : Bool
  reason : String
  error : Option String
deriving DecidableEq, Repr

/-- Outcome of one isolation sequence: the mutated result record, the
messages handed to `router.Send`, and whether `AutoNukeIfClean` was
reached. -/
structure ProcOutcome where
  result : CircuitBreakerResult
  sent : List Message
  nukeAttempted : Bool
deriving DecidableEq, Repr

/-- Body of the WORK_REQUEUE message, `circuit_breaker.go` lines 160-173. -/
def workRequeueBody (hookBeadID rigName polecatName : String)
    (failureCount : Nat) : String :=
  "Work needs reassignment after circuit breaker trip.\n\nBead: "
    ++ hookBeadID
    ++ "\nPrevious Polecat: " ++ rigName ++ "/" ++ polecatName
    ++ "\nFailure Count: " ++ toString failureCount
    ++ "\nReason: Circuit breaker tripped after consecutive failures\n\n"
    ++ "The previous polecat has been nuked. Please assign this work to a fresh polecat.\n"
    ++ "This is NOT a retry - the work may need investigation for consistent failures."

/-- The WORK_REQUEUE message built by `sendWorkRequeue`,
`circuit_breaker.go` lines 154-174. -/
def workRequeueMessage (rigName polecatName hookBeadID : String)
    (failureCount : Nat) : Message :=
  { fromAddr := rigName ++ "/witness"
    toAddr := "mayor/"
    subject := "WORK_REQUEUE " ++ hookBeadID
    priority := "high"
    mtype := "task"
    body := workRequeueBody hookBeadID rigName polecatName failureCount }

/-- `sendWorkRequeue`, `circuit_breaker.go` lines 149-181: a `nil` router
is an error before any message is built; otherwise the message is handed to
`router.Send`, returning the send error or the message ID.  The second
component records the messages passed to `Send`. -/
def sendWorkRequeue (router : Option Router)
    (rigName polecatName hookBeadID : String) (failureCount : Nat) :
    Except String String × List Message :=
  match router with
  | none => (Except.error "router is nil", [])
  | some r =>
    let msg := workRequeueMessage rigName polecatName hookBeadID failureCount
    match r.sendResult msg with
    | Except.error e => (Except.error e, [msg])
    | Except.ok id => (Except.ok id, [msg])

/-- Body of the escalation message, `circuit_breaker.go` lines 192-212. -/
def escalationBody (rigName polecatName : String) (fields : AgentFields)
    (reason : String) : String :=
  "Circuit breaker tripped but couldn't auto-nuke polecat.\n\nPolecat: "
    ++ rigName ++ "/" ++ polecatName
    ++ "\nCircuit State: " ++ fields.circuitState
    ++ "\nFailure Count: " ++ toString fields.failureCount
    ++ "\nCleanup Status: " ++ fields.cleanupStatus
    ++ "\nHook Bead: " ++ fields.hookBead
    ++ "\nNuke Blocked: " ++ reason
    ++ "\n\nPlease investigate and manually resolve:\n"
    ++ "1. Check if polecat has valuable uncommitted work\n"
    ++ "2. Either recover work or authorize force-nuke\n"
    ++ "3. Reassign the work (if any) to a fresh polecat"

/-- The escalation message built by `escalateTrippedCircuit`,
`circuit_breaker.go` lines 186-213 (its send error is discarded with
`_ =` in Go, so only the message handed to `Send` matters). -/
def escalationMessage (rigName polecatName : String) (fields : AgentFields)
    (reason : String) : Message :=
  { fromAddr := rigName ++ "/witness"
    toAddr := "mayor/"
    subject := "CIRCUIT_BREAKER_ESCALATION " ++ rigName ++ "/" ++ polecatName
    priority := "urgent"
    mtype := "task"
    body := escalationBody rigName polecatName fields reason }

/-- The auto-nuke phase of `processTrippedCircuit`, `circuit_breaker.go`
lines 124-144: attempt `AutoNukeIfClean` (given here as the oracle
`autoNuke`); on error or refusal set `action = "escalated"` and, when the
router is non-nil, send the escalation message; on success set
`action = "requeued"`. -/
def nukePolecatPhase (rigName : String) (fields : AgentFields)
    (router : Option Router) (autoNuke : String → NukeResult)
    (res : CircuitBreakerResult) (sent0 : List Message) : ProcOutcome :=
  let nukeResult := autoNuke res.polecatName
  match nukeResult.error with
  | some e =>
    { result := { res with error := some e, action := "escalated" }
      sent := sent0 ++ (match router with
        | some _ => [escalationMessage rigName res.polecatName fields nukeResult.reason]
        | none => [])
      nukeAttempted := true }
  | none =>
    if nukeResult.nuked then
      { result := { res with action := "requeued" }
        sent := sent0
        nukeAttempted := true }
    else
      { result := { res with action := "escalated" }
        sent := sent0 ++ (match router with
          | some _ => [escalationMessage rigName res.polecatName fields nukeResult.reason]
          | none => [])
        nukeAttempted := true }

/-- `processTrippedCircuit`, `circuit_breaker.go` lines 106-145: if there
is hooked work, first send WORK_REQUEUE — a send failure aborts with
`action = "error"` before the nuke phase; otherwise record the mail ID and
fall through to the nuke phase. -/
def processTrippedCircuit (rigName : String) (fields : AgentFields)
    (router : Option Router) (autoNuke : String → NukeResult)
    (result0 : CircuitBreakerResult) : ProcOutcome :=
  if fields.hookBead != "" then
    match sendWorkRequeue router rigName result0.polecatName fields.hookBead
        fields.failureCount with
    | (Except.error e, msgs) =>
      { result := { result0 with
          error := some ("sending WORK_REQUEUE: " ++ e), action := "error" }
        sent := msgs
        nukeAttempted := false }
    | (Except.ok mailID, msgs) =>
      nukePolecatPhase rigName fields router autoNuke
        { result0 with mailSent := mailID } msgs
  else
    nukePolecatPhase rigName fields router autoNuke result0 []

/-- Check whether a list has `pre` as a prefix (Go `strings.HasPrefix`,
over the character list). -/
def isPrefixList (pre s : List Char) : Bool :=
  match pre, s with
  | [], _ => true
  | _ :: _, [] => false
  | p :: ps, c :: cs => p == c && isPrefixList ps cs

/-- The suffix after the rightmost occurrence of `marker` in `s`, if any —
the loop of `extractPolecatName` scans indices from high to low
(`circuit_breaker.go` lines 223-228). -/
def afterLastMarker (marker s : List Char) : Option (List Char) :=
  match s with
  | [] => none
  | c :: rest =>
    match afterLastMarker marker rest with
    | some r => some r
    | none =>
      if isPrefixList marker (c :: rest) then
        some (List.drop marker.length (c :: rest))
      else none

/-- `extractPolecatName`, `circuit_breaker.go` lines 220-236: the part
after the last `"-polecat-"`, else after the last `'-'`, else the whole
ID. -/
def extractPolecatName (agentBeadID : String) : String :=
  match afterLastMarker "-polecat-".data agentBeadID.data with
  | some name => ⟨name⟩
  | none =>
    match afterLastMarker ['-'] agentBeadID.data with
    | some name => ⟨name⟩
    | none => agentBeadID

/-- `CheckCircuitBreakers`, `circuit_breaker.go` lines 52-102, given the
snapshot of agent beads (the `ListAgentBeads` result, already parsed into
fields): process each polecat agent of this rig whose circuit is open,
skipping all others. -/
def checkCircuitBreakers (rigName : String) (router : Option Router)
    (autoNuke : String → NukeResult)
    (agentBeads : List (String × AgentFields)) : List ProcOutcome :=
  match agentBeads with
  | [] => []
  | (id, fields) :: rest =>
    if fields.roleType == "polecat" && fields.rig == rigName
        && fields.circuitState == "open" then
      let result0 : CircuitBreakerResult :=
        { polecatName := extractPolecatName id
          agentBeadID := id
          circuitState := fields.circuitState
          failureCount := fields.failureCount
          action := ""
          wispID := ""
          mailSent := ""
          error := none }
      processTrippedCircuit rigName fields router autoNuke result0
        :: checkCircuitBreakers rigName router autoNuke rest
    else
      checkCircuitBreakers rigName router autoNuke rest

/-- Modelled from the spec: `ScoreConfig` of the refinery score function,
whose implementation is not under the source tree (only its tests are).
§3: base score, convoy-age weight, priority weight, retry penalty per
retry, max retry penalty, work-item-age weight; Go `float64` modelled as
`ℚ`. -/
structure ScoreConfig where
  baseScore : ℚ
  convoyAgeWeight : ℚ
  priorityWeight : ℚ
  retryPenalty : ℚ
  mrAgeWeight : ℚ
  maxRetryPenalty : ℚ
deriving DecidableEq, Repr

/-- Modelled from the spec: `ScoreInput` (§3) — declared priority,
work-item creation timestamp, optional convoy creation timestamp, retry
count, evaluation timestamp.  Timestamps are rational numbers of hours, so
`now - createdAt` is the age in hours.  (The wall-clock fallback for a
zero `now` is the spec's one non-deterministic branch and is outside this
deterministic model.) -/
structure ScoreInput where
  priority : ℤ
  mrCreatedAt : ℚ
  convoyCreatedAt : Option ℚ
  retryCount : ℕ
  now : ℚ
deriving DecidableEq, Repr

/-- Modelled from the spec: `DefaultScoreConfig` (§6: `base=1000,
convoyAgeWeight=10, priorityWeight=100, retryPenalty=50, mrAgeWeight=1,
maxRetryPenalty=300`). -/
def DefaultScoreConfig : ScoreConfig :=
  { baseScore := 1000
    convoyAgeWeight := 10
    priorityWeight := 100
    retryPenalty := 50
    mrAgeWeight := 1
    maxRetryPenalty := 300 }

/-- Modelled from the spec: `ScoreMR` (§4.5), whose implementation is not
under the source tree.  Formula: `base + convoyAgeWeight * convoyAgeHours
(0 if no convoy) + priorityWeight * (4 - priority) - min(retryPenalty *
retryCount, maxRetryPenalty) + mrAgeWeight * workItemAgeHours`. -/
def ScoreMR (input : ScoreInput) (config : ScoreConfig) : ℚ :=
  let mrAgeHours : ℚ := input.now - input.mrCreatedAt
  let convoyAgeHours : ℚ :=
    match input.convoyCreatedAt with
    | some t => input.now - t
    | none => 0
  config.baseScore
    + config.convoyAgeWeight * convoyAgeHours
    + config.priorityWeight * ((4 : ℚ) - (input.priority : ℚ))
    - min (config.retryPenalty * (input.retryCount : ℚ)) config.maxRetryPenalty
    + config.mrAgeWeight * mrAgeHours

/-- Modelled from the spec: the payload of a parsed WORK_REQUEUE message
(§6 wire format) — work identity, prior agent identity, failure count. -/
structure WorkRequeuePayload where
  beadID : String
  previousPolecat : String
  failureCount : Nat
deriving DecidableEq, Repr

/-- Parse a decimal natural number from characters; `none` when empty or a
non-digit appears (a malformed count defaults to 0 at the use site). -/
def parseNatDigits (s : List Char) : Option Nat :=
  match s with
  | [] => none
  | _ =>
    s.foldl (fun acc c =>
      match acc with
      | none => none
      | some n => if c.isDigit then some (n * 10 + (c.toNat - 48)) else none)
      (some 0)

/-- Split a character list at newline characters. -/
def splitLinesList (s : List Char) : List (List Char) :=
  match s with
  | [] => [[]]
  | c :: rest =>
    let ls := splitLinesList rest
    if c == '\n' then [] :: ls
    else
      match ls with
      | [] => [[c]]
      | l :: ls' => (c :: l) :: ls'

/-- Fold one body line into the payload: `"Bead: <id>"`,
`"Previous Polecat: <rig>/<agent>"` and `"Failure Count: <n>"` lines set
the corresponding field; other lines are ignored. -/
def applyRequeueLine (p : WorkRequeuePayload) (line : List Char) :
    WorkRequeuePayload :=
  if isPrefixList "Bead: ".data line then
    { p with beadID := ⟨List.drop 6 line⟩ }
  else if isPrefixList "Previous Polecat: ".data line then
    { p with previousPolecat := ⟨List.drop 18 line⟩ }
  else if isPrefixList "Failure Count: ".data line then
    { p with failureCount := (parseNatDigits (List.drop 15 line)).getD 0 }
  else p

/-- Modelled from the spec: `ParseWorkRequeue` (§4.4, §6), whose
implementation is not under the source tree.  A subject without the
`"WORK_REQUEUE "` prefix is a parse error; otherwise the bead ID is the
subject's remainder, and the optional body lines fill in the previous
polecat and failure count, defaulting to empty and 0. -/
def ParseWorkRequeue (subject body : String) :
    Except String WorkRequeuePayload :=
  if isPrefixList "WORK_REQUEUE ".data subject.data then
    let beadID : String := ⟨List.drop 13 subject.data⟩
    let init : WorkRequeuePayload :=
      { beadID := beadID, previousPolecat := "", failureCount := 0 }
    Except.ok ((splitLinesList body.data).foldl applyRequeueLine init)
  else
    Except.error ("not a WORK_REQUEUE message: " ++ subject)

/-- The persisted per-agent circuit-breaker record (failure count and
circuit state), as stored in the agent bead description. -/
structure AgentRecord where
  failureCount : Nat
  circuitState : String
deriving DecidableEq, Repr

/-- Modelled from the spec: `IncrementAgentFailureCount` of the beads
store (reached through `HandlePolecatFailure`), whose implementation is
not under the source tree.  §4.1: increment the failure count by one and,
if the new count reaches `maxFailures`, transition circuit state to
`open` and report `tripped = true`; otherwise state is unchanged and
`tripped = false`.  Returns the updated record, the new count and the
tripped flag. -/
def IncrementAgentFailureCount (rec : AgentRecord) (maxFailures : Nat) :
    AgentRecord × Nat × Bool :=
  let newCount := rec.failureCount + 1
  if maxFailures ≤ newCount then
    ({ failureCount := newCount, circuitState := "open" }, newCount, true)
  else
    ({ rec with failureCount := newCount }, newCount, false)

/-- A fresh agent record: failure count 0, circuit `closed` (§3). -/
def freshAgent : AgentRecord :=
  { failureCount := 0, circuitState := "closed" }

/-- The agent record after `k` consecutive `RecordFailure` calls starting
from a fresh agent. -/
def afterFailures (maxFailures : Nat) : Nat → AgentRecord
  | 0 => freshAgent
  | k + 1 =>
    (IncrementAgentFailureCount (afterFailures maxFailures k) maxFailures).1

/-! ## Helper lemmas -/

lemma nukePhase_action_cases (rigName : String) (fields : AgentFields)
    (router : Option Router) (autoNuke : String → NukeResult)
    (res : CircuitBreakerResult) (sent0 : List Message) :
    (nukePolecatPhase rigName fields router autoNuke res sent0).result.action = "requeued"
    ∨ (nukePolecatPhase rigName fields router autoNuke res sent0).result.action = "escalated" := by
  simp only [nukePolecatPhase]
  cases hE : (autoNuke res.polecatName).error with
  | some e => right; rfl
  | none =>
    cases hN : (autoNuke res.polecatName).nuked with
    | true => left; simp [hN]
    | false => right; simp [hN]

lemma processTrippedCircuit_action_cases (rigName : String) (fields : AgentFields)
    (router : Option Router) (autoNuke : String → NukeResult)
    (result0 : CircuitBreakerResult) :
    (processTrippedCircuit rigName fields router autoNuke result0).result.action = "requeued"
    ∨ (processTrippedCircuit rigName fields router autoNuke result0).result.action = "escalated"
    ∨ (processTrippedCircuit rigName fields router autoNuke result0).result.action = "error" := by
  unfold processTrippedCircuit
  by_cases hB : (fields.hookBead != "") = true
  · rw [if_pos hB]
    rcases hsw : sendWorkRequeue router rigName result0.polecatName fields.hookBead
        fields.failureCount with ⟨r, msgs⟩
    cases r with
    | error e => right; right; rfl
    | ok id =>
      rcases nukePhase_action_cases rigName fields router autoNuke
        { result0 with mailSent := id } msgs with h | h
      · left; exact h
      · right; left; exact h
  · rw [if_neg hB]
    rcases nukePhase_action_cases rigName fields router autoNuke result0 [] with h | h
    · left; exact h
    · right; left; exact h

lemma nukePhase_agentBeadID (rigName : String) (fields : AgentFields)
    (router : Option Router) (autoNuke : String → NukeResult)
    (res : CircuitBreakerResult) (sent0 : List Message) :
    (nukePolecatPhase rigName fields router autoNuke res sent0).result.agentBeadID
      = res.agentBeadID := by
  simp only [nukePolecatPhase]
  cases hE : (autoNuke res.polecatName).error with
  | some e => rfl
  | none =>
    cases hN : (autoNuke res.polecatName).nuked with
    | true => simp [hN]
    | false => simp [hN]

lemma processTrippedCircuit_agentBeadID (rigName : String) (fields : AgentFields)
    (router : Option Router) (autoNuke : String → NukeResult)
    (result0 : CircuitBreakerResult) :
    (processTrippedCircuit rigName fields router autoNuke result0).result.agentBeadID
      = result0.agentBeadID := by
  unfold processTrippedCircuit
  by_cases hB : (fields.hookBead != "") = true
  · rw [if_pos hB]
    rcases hsw : sendWorkRequeue router rigName result0.polecatName fields.hookBead
        fields.failureCount with ⟨r, msgs⟩
    cases r with
    | error e => rfl
    | ok id => exact nukePhase_agentBeadID ..
  · rw [if_neg hB]; exact nukePhase_agentBeadID ..

lemma nukePhase_escalation_mem (rigName : String) (fields : AgentFields)
    (rt : Router) (autoNuke : String → NukeResult)
    (res : CircuitBreakerResult) (sent0 : List Message)
    (h : (nukePolecatPhase rigName fields (some rt) autoNuke res sent0).result.action
      = "escalated") :
    escalationMessage rigName res.polecatName fields (autoNuke res.polecatName).reason
      ∈ (nukePolecatPhase rigName fields (some rt) autoNuke res sent0).sent := by
  simp only [nukePolecatPhase] at h ⊢
  cases hE : (autoNuke res.polecatName).error with
  | some e => simp [hE]
  | none =>
    rw [hE] at h
    cases hN : (autoNuke res.polecatName).nuked with
    | true => rw [hN] at h; simp at h
    | false => simp [hN]

/-! ## Claim theorems: circuit breaker -/

/-! Concrete instances used by counterexamples and witnesses. -/

/-- An open-circuit polecat with hooked work. -/
def fldsHookedOpen : AgentFields :=
  { roleType := "polecat", rig := "rig1", hookBead := "bd-1"
    cleanupStatus := "dirty", failureCount := 3, circuitState := "open" }

/-- An open-circuit polecat without hooked work. -/
def fldsNoHookOpen : AgentFields :=
  { roleType := "polecat", rig := "rig1", hookBead := ""
    cleanupStatus := "dirty", failureCount := 3, circuitState := "open" }

/-- The initial result record for the agent bead `gs-rig1-polecat-nux`. -/
def resInit : CircuitBreakerResult :=
  { polecatName := "nux", agentBeadID := "gs-rig1-polecat-nux"
    circuitState := "open", failureCount := 3, action := ""
    wispID := "", mailSent := "", error := none }

/-- A router whose `Send` always fails. -/
def failingRouter : Router := ⟨fun _ => Except.error "transport down"⟩

/-- A router whose `Send` always succeeds with mail ID `mail-1`. -/
def okRouter : Router := ⟨fun _ => Except.ok "mail-1"⟩

/-- An `AutoNukeIfClean` oracle that always nukes. -/
def nukeClean : String → NukeResult := fun _ => { nuked := true, reason := "", error := none }

/-- An `AutoNukeIfClean` oracle that always refuses (dirty state). -/
def nukeDirty : String → NukeResult :=
  fun _ => { nuked := false, reason := "uncommitted changes", error := none }

/-- C1 counterexample: an agent in circuit state `open` with a hooked work
item whose WORK_REQUEUE send fails yields `action = "error"` — neither
`"requeued"` nor `"escalated"` as the claim states. -/
theorem hooked_open_send_failure_gives_error_action :
    fldsHookedOpen.circuitState = "open" ∧ fldsHookedOpen.hookBead ≠ "" ∧
    ¬ ((processTrippedCircuit "rig1" fldsHookedOpen (some failingRouter) nukeClean
          resInit).result.action = "requeued"
      ∨ (processTrippedCircuit "rig1" fldsHookedOpen (some failingRouter) nukeClean
          resInit).result.action = "escalated") := by
  refine ⟨rfl, by decide, by decide⟩

/-- C1 (amended): an agent in circuit state `open` with a hooked work item,
on isolation, yields a `requeued`, `escalated` or `error` result — never a
result with a missing action. -/
theorem hooked_open_action_requeued_escalated_or_error
    (rigName : String) (fields : AgentFields) (router : Option Router)
    (autoNuke : String → NukeResult) (result0 : CircuitBreakerResult)
    (_hOpen : fields.circuitState = "open") (_hHook : fields.hookBead ≠ "") :
    ((processTrippedCircuit rigName fields router autoNuke result0).result.action = "requeued"
      ∨ (processTrippedCircuit rigName fields router autoNuke result0).result.action = "escalated"
      ∨ (processTrippedCircuit rigName fields router autoNuke result0).result.action = "error")
    ∧ (processTrippedCircuit rigName fields router autoNuke result0).result.action ≠ "" := by
  have h := processTrippedCircuit_action_cases rigName fields router autoNuke result0
  refine ⟨h, ?_⟩
  rcases h with h | h | h <;> simp [h]

/-- Witness for the amended C1 at a concrete hooked open agent. -/
theorem hooked_open_action_requeued_escalated_or_error_witness :
    fldsHookedOpen.circuitState = "open" ∧ fldsHookedOpen.hookBead ≠ "" ∧
    (((processTrippedCircuit "rig1" fldsHookedOpen (some okRouter) nukeClean
          resInit).result.action = "requeued"
      ∨ (processTrippedCircuit "rig1" fldsHookedOpen (some okRouter) nukeClean
          resInit).result.action = "escalated"
      ∨ (processTrippedCircuit "rig1" fldsHookedOpen (some okRouter) nukeClean
          resInit).result.action = "error")
    ∧ (processTrippedCircuit "rig1" fldsHookedOpen (some okRouter) nukeClean
          resInit).result.action ≠ "") :=
  ⟨rfl, by decide,
    hooked_open_action_requeued_escalated_or_error "rig1" fldsHookedOpen (some okRouter)
      nukeClean resInit rfl (by decide)⟩

/-- C2: if the WORK_REQUEUE send fails for a hooked isolation candidate,
the sequence aborts before the nuke: `AutoNukeIfClean` is never reached,
the action is `"error"`, and the wrapped send error is recorded. -/
theorem send_failure_aborts_before_nuke
    (rigName : String) (fields : AgentFields) (router : Option Router)
    (autoNuke : String → NukeResult) (result0 : CircuitBreakerResult) (e : String)
    (hHook : fields.hookBead ≠ "")
    (hSend : (sendWorkRequeue router rigName result0.polecatName fields.hookBead
        fields.failureCount).1 = Except.error e) :
    (processTrippedCircuit rigName fields router autoNuke result0).nukeAttempted = false
    ∧ (processTrippedCircuit rigName fields router autoNuke result0).result.action = "error"
    ∧ (processTrippedCircuit rigName fields router autoNuke result0).result.error
        = some ("sending WORK_REQUEUE: " ++ e) := by
  unfold processTrippedCircuit
  have hB : (fields.hookBead != "") = true := by simpa using hHook
  rw [if_pos hB]
  rcases hsw : sendWorkRequeue router rigName result0.polecatName fields.hookBead
      fields.failureCount with ⟨r, msgs⟩
  rw [hsw] at hSend
  cases r with
  | error e' =>
    have he : e' = e := by simpa using hSend
    subst he
    exact ⟨rfl, rfl, rfl⟩
  | ok id => simp at hSend

/-- Witness for C2 at a concrete hooked agent with a failing router. -/
theorem send_failure_aborts_before_nuke_witness :
    fldsHookedOpen.hookBead ≠ ""
    ∧ (sendWorkRequeue (some failingRouter) "rig1" resInit.polecatName
        fldsHookedOpen.hookBead fldsHookedOpen.failureCount).1
          = Except.error "transport down"
    ∧ ((processTrippedCircuit "rig1" fldsHookedOpen (some failingRouter) nukeClean
          resInit).nukeAttempted = false
      ∧ (processTrippedCircuit "rig1" fldsHookedOpen (some failingRouter) nukeClean
          resInit).result.action = "error"
      ∧ (processTrippedCircuit "rig1" fldsHookedOpen (some failingRouter) nukeClean
          resInit).result.error = some ("sending WORK_REQUEUE: " ++ "transport down")) :=
  ⟨by decide, rfl,
    send_failure_aborts_before_nuke "rig1" fldsHookedOpen (some failingRouter) nukeClean
      resInit "transport down" (by decide) rfl⟩

/-- C3 counterexample: with a nil router and a dirty (un-nukeable) polecat,
the result records `action = "escalated"` yet no notification at all is
sent. -/
theorem escalated_without_router_sends_nothing :
    (processTrippedCircuit "rig1" fldsNoHookOpen none nukeDirty resInit).result.action
        = "escalated"
    ∧ (processTrippedCircuit "rig1" fldsNoHookOpen none nukeDirty resInit).sent = [] :=
  ⟨rfl, rfl⟩

/-- C3 (amended): when the router is non-nil, every `escalated` result is
accompanied by the escalation notification — the message describing the
circuit state, failure count, cleanup status, hooked work and the refusal
reason (see `escalationMessage`/`escalationBody`) is handed to `Send`. -/
theorem escalated_with_router_sends_escalation
    (rigName : String) (fields : AgentFields) (rt : Router)
    (autoNuke : String → NukeResult) (result0 : CircuitBreakerResult)
    (h : (processTrippedCircuit rigName fields (some rt) autoNuke result0).result.action
      = "escalated") :
    escalationMessage rigName result0.polecatName fields
        (autoNuke result0.polecatName).reason
      ∈ (processTrippedCircuit rigName fields (some rt) autoNuke result0).sent := by
  unfold processTrippedCircuit at h ⊢
  by_cases hB : (fields.hookBead != "") = true
  · rw [if_pos hB] at h ⊢
    rcases hsw : sendWorkRequeue (some rt) rigName result0.polecatName fields.hookBead
        fields.failureCount with ⟨r, msgs⟩
    rw [hsw] at h
    cases r with
    | error e => simp at h
    | ok id =>
      exact nukePhase_escalation_mem rigName fields rt autoNuke ({ result0 with mailSent := id }) msgs h
  · rw [if_neg hB] at h ⊢
    exact nukePhase_escalation_mem rigName fields rt autoNuke result0 [] h

/-- Witness for the amended C3 at a concrete dirty polecat with a live
router. -/
theorem escalated_with_router_sends_escalation_witness :
    escalationMessage "rig1" resInit.polecatName fldsNoHookOpen
        (nukeDirty resInit.polecatName).reason
      ∈ (processTrippedCircuit "rig1" fldsNoHookOpen (some okRouter) nukeDirty
          resInit).sent :=
  escalated_with_router_sends_escalation "rig1" fldsNoHookOpen okRouter nukeDirty
    resInit rfl

/-- C4: the evaluation cycle produces exactly one result per polecat agent
of the supervised rig whose circuit is open (in snapshot order, carrying
that agent's bead ID); agents in other circuit states, roles or rigs
produce no result. -/
theorem checkCircuitBreakers_one_result_per_open_polecat
    (rigName : String) (router : Option Router) (autoNuke : String → NukeResult)
    (agentBeads : List (String × AgentFields)) :
    (checkCircuitBreakers rigName router autoNuke agentBeads).map
        (fun o => o.result.agentBeadID)
      = (agentBeads.filter (fun p => p.2.roleType == "polecat" && p.2.rig == rigName
          && p.2.circuitState == "open")).map Prod.fst := by
  induction agentBeads with
  | nil => rfl
  | cons hd tl ih =>
    obtain ⟨id, fields⟩ := hd
    by_cases hc : (fields.roleType == "polecat" && fields.rig == rigName
        && fields.circuitState == "open") = true
    · simp only [checkCircuitBreakers, hc, if_pos, List.filter_cons, List.map_cons,
        processTrippedCircuit_agentBeadID, ih]
    · simp only [Bool.not_eq_true] at hc
      simp [checkCircuitBreakers, List.filter_cons, hc, ih]

/-- C10: every result of the evaluation cycle has action `"requeued"`,
`"escalated"` or `"error"` — never `"nuked"`, `"half_open"` or any other
value. -/
theorem checkCircuitBreakers_actions_requeued_escalated_or_error
    (rigName : String) (router : Option Router) (autoNuke : String → NukeResult)
    (agentBeads : List (String × AgentFields)) :
    (checkCircuitBreakers rigName router autoNuke agentBeads).all
      (fun o => o.result.action == "requeued" || o.result.action == "escalated"
        || o.result.action == "error") = true := by
  induction agentBeads with
  | nil => rfl
  | cons hd tl ih =>
    obtain ⟨id, fields⟩ := hd
    by_cases hc : (fields.roleType == "polecat" && fields.rig == rigName
        && fields.circuitState == "open") = true
    · simp only [checkCircuitBreakers, hc, if_pos, List.all_cons, ih, Bool.and_true]
      rcases processTrippedCircuit_action_cases rigName fields router autoNuke
        { polecatName := extractPolecatName id, agentBeadID := id
          circuitState := fields.circuitState, failureCount := fields.failureCount
          action := "", wispID := "", mailSent := "", error := none } with h | h | h <;>
        simp [h]
    · simp only [checkCircuitBreakers, hc, if_neg]
      simpa using ih

/-! ## Claim theorems: score function, parser, failure counter -/

/-- Score input of the spec's first worked example: priority 2, work-item
age 2 hours, convoy age 24 hours, 1 retry. -/
def scoreInputConvoy : ScoreInput :=
  { priority := 2, mrCreatedAt := 10, convoyCreatedAt := some (-12)
    retryCount := 1, now := 12 }

/-- Score input of the spec's second worked example: priority 2, work-item
age 1 hour, no convoy, 0 retries. -/
def scoreInputNoConvoy : ScoreInput :=
  { priority := 2, mrCreatedAt := 9, convoyCreatedAt := none
    retryCount := 0, now := 10 }

/-- C5: with the default config, the worked examples score exactly 1392
(priority 2, 2h work-item age, 24h convoy age, 1 retry) and exactly 1201
(priority 2, 1h work-item age, no convoy, 0 retries). -/
theorem scoreMR_worked_examples :
    ScoreMR scoreInputConvoy DefaultScoreConfig = 1392
    ∧ ScoreMR scoreInputNoConvoy DefaultScoreConfig = 1201 := by
  constructor <;>
    norm_num [ScoreMR, DefaultScoreConfig, scoreInputConvoy, scoreInputNoConvoy, min_def]

/-- A score config with zero priority weight (all weights are unenforced
by the score function). -/
def zeroPriorityWeightConfig : ScoreConfig :=
  { DefaultScoreConfig with priorityWeight := 0 }

/-- C6 counterexample: with priority weight 0, two inputs identical except
for priorities 0 and 1 receive the same score, so the smaller priority
does not receive a strictly greater score. -/
theorem score_not_strict_for_zero_priority_weight :
    ({ scoreInputNoConvoy with priority := 0 } : ScoreInput).priority = 0
    ∧ ({ scoreInputNoConvoy with priority := 1 } : ScoreInput).priority = 1
    ∧ ¬ (ScoreMR { scoreInputNoConvoy with priority := 0 } zeroPriorityWeightConfig
        > ScoreMR { scoreInputNoConvoy with priority := 1 } zeroPriorityWeightConfig) := by
  refine ⟨rfl, rfl, ?_⟩
  norm_num [ScoreMR, zeroPriorityWeightConfig, DefaultScoreConfig, scoreInputNoConvoy, min_def]

/-- C6 (amended): for every config with positive priority weight, the score
is strictly decreasing in priority over 0..4 with all other fields equal —
the numerically smaller priority scores strictly higher. -/
theorem score_strictly_decreasing_in_priority
    (cfg : ScoreConfig) (hw : 0 < cfg.priorityWeight) (i : ScoreInput)
    (p q : ℤ) (_hp : 0 ≤ p) (hpq : p < q) (_hq : q ≤ 4) :
    ScoreMR { i with priority := q } cfg < ScoreMR { i with priority := p } cfg := by
  have hq' : (p : ℚ) < (q : ℚ) := by exact_mod_cast hpq
  have hmul := mul_lt_mul_of_pos_left (sub_lt_sub_left hq' (4 : ℚ)) hw
  unfold ScoreMR
  cases i.convoyCreatedAt with
  | none => dsimp only; linarith
  | some t => dsimp only; linarith

/-- Witness for the amended C6: default config, priorities 0 and 1. -/
theorem score_strictly_decreasing_in_priority_witness :
    (0 : ℚ) < DefaultScoreConfig.priorityWeight ∧ (0 : ℤ) ≤ 0 ∧ (0 : ℤ) < 1 ∧ (1 : ℤ) ≤ 4
    ∧ ScoreMR { scoreInputNoConvoy with priority := 1 } DefaultScoreConfig
        < ScoreMR { scoreInputNoConvoy with priority := 0 } DefaultScoreConfig :=
  ⟨by norm_num [DefaultScoreConfig], by norm_num, by norm_num, by norm_num,
    score_strictly_decreasing_in_priority DefaultScoreConfig
      (by norm_num [DefaultScoreConfig]) scoreInputNoConvoy 0 1
      (by norm_num) (by norm_num) (by norm_num)⟩

/-- C7: with positive retry penalty, any two retry counts at or beyond
`maxRetryPenalty / retryPenalty` yield the same score, all else equal —
the retry penalty is flat beyond the cap. -/
theorem score_retry_penalty_flat_beyond_cap
    (cfg : ScoreConfig) (hrp : 0 < cfg.retryPenalty) (i : ScoreInput)
    (r1 r2 : ℕ)
    (h1 : cfg.maxRetryPenalty / cfg.retryPenalty ≤ (r1 : ℚ))
    (h2 : cfg.maxRetryPenalty / cfg.retryPenalty ≤ (r2 : ℚ)) :
    ScoreMR { i with retryCount := r1 } cfg = ScoreMR { i with retryCount := r2 } cfg := by
  have m1 : min (cfg.retryPenalty * (r1 : ℚ)) cfg.maxRetryPenalty = cfg.maxRetryPenalty := by
    refine min_eq_right ?_
    rw [div_le_iff₀ hrp] at h1
    linarith
  have m2 : min (cfg.retryPenalty * (r2 : ℚ)) cfg.maxRetryPenalty = cfg.maxRetryPenalty := by
    refine min_eq_right ?_
    rw [div_le_iff₀ hrp] at h2
    linarith
  unfold ScoreMR
  cases i.convoyCreatedAt with
  | none => dsimp only; rw [m1, m2]
  | some t => dsimp only; rw [m1, m2]

/-- Witness for C7: default config (cap 300 reached at 6 retries), retry
counts 6 and 10. -/
theorem score_retry_penalty_flat_beyond_cap_witness :
    (0 : ℚ) < DefaultScoreConfig.retryPenalty
    ∧ DefaultScoreConfig.maxRetryPenalty / DefaultScoreConfig.retryPenalty ≤ ((6 : ℕ) : ℚ)
    ∧ DefaultScoreConfig.maxRetryPenalty / DefaultScoreConfig.retryPenalty ≤ ((10 : ℕ) : ℚ)
    ∧ ScoreMR { scoreInputNoConvoy with retryCount := 6 } DefaultScoreConfig
        = ScoreMR { scoreInputNoConvoy with retryCount := 10 } DefaultScoreConfig :=
  ⟨by norm_num [DefaultScoreConfig], by norm_num [DefaultScoreConfig],
    by norm_num [DefaultScoreConfig],
    score_retry_penalty_flat_beyond_cap DefaultScoreConfig
      (by norm_num [DefaultScoreConfig]) scoreInputNoConvoy 6 10
      (by norm_num [DefaultScoreConfig]) (by norm_num [DefaultScoreConfig])⟩

/-- C8: `ParseWorkRequeue "WORK_REQUEUE bd-xyz" ""` succeeds with bead id
`bd-xyz`, empty previous agent and failure count 0; and every subject
without the `"WORK_REQUEUE "` prefix is a parse error. -/
theorem parseWorkRequeue_minimal_and_prefix_required :
    ParseWorkRequeue "WORK_REQUEUE bd-xyz" ""
        = Except.ok { beadID := "bd-xyz", previousPolecat := "", failureCount := 0 }
    ∧ ∀ subject body : String,
        isPrefixList "WORK_REQUEUE ".data subject.data = false →
        ∃ e, ParseWorkRequeue subject body = Except.error e := by
  constructor
  · rfl
  · intro subject body h
    refine ⟨"not a WORK_REQUEUE message: " ++ subject, ?_⟩
    simp [ParseWorkRequeue, h]

/-- Witness for C8's prefix clause at the concrete subject
`INVALID_MESSAGE`. -/
theorem parseWorkRequeue_minimal_and_prefix_required_witness :
    isPrefixList "WORK_REQUEUE ".data "INVALID_MESSAGE".data = false
    ∧ ∃ e, ParseWorkRequeue "INVALID_MESSAGE" "" = Except.error e :=
  ⟨by decide, parseWorkRequeue_minimal_and_prefix_required.2 "INVALID_MESSAGE" "" (by decide)⟩

/-- A fresh agent after fewer than `maxFailures` failures has that many
failures recorded and a still-closed circuit. -/
lemma afterFailures_of_lt (maxFailures k : Nat) (hk : k < maxFailures) :
    afterFailures maxFailures k = { failureCount := k, circuitState := "closed" } := by
  induction k with
  | zero => rfl
  | succ n ih =>
    have hn : n < maxFailures := Nat.lt_of_succ_lt hk
    rw [afterFailures, ih hn]
    unfold IncrementAgentFailureCount
    dsimp only
    rw [if_neg (by omega)]

/-- C9: starting from a fresh agent, `RecordFailure` reports
`tripped = false` on each of the first `maxFailures - 1` calls and
`tripped = true` exactly on the `maxFailures`-th call, at which point the
circuit state becomes `open`. -/
theorem recordFailure_trips_exactly_at_max (maxFailures : Nat)
    (hpos : 0 < maxFailures) :
    (∀ k, k + 1 < maxFailures →
      (IncrementAgentFailureCount (afterFailures maxFailures k) maxFailures).2.2 = false)
    ∧ (IncrementAgentFailureCount (afterFailures maxFailures (maxFailures - 1))
        maxFailures).2.2 = true
    ∧ (IncrementAgentFailureCount (afterFailures maxFailures (maxFailures - 1))
        maxFailures).1.circuitState = "open" := by
  refine ⟨?_, ?_, ?_⟩
  · intro k hk
    rw [afterFailures_of_lt maxFailures k (by omega)]
    unfold IncrementAgentFailureCount
    dsimp only
    rw [if_neg (by omega)]
  · rw [afterFailures_of_lt maxFailures (maxFailures - 1) (by omega)]
    unfold IncrementAgentFailureCount
    dsimp only
    rw [if_pos (by omega)]
  · rw [afterFailures_of_lt maxFailures (maxFailures - 1) (by omega)]
    unfold IncrementAgentFailureCount
    dsimp only
    rw [if_pos (by omega)]

/-- Witness for C9 with the default `maxFailures = 3`: the third call
trips. -/
theorem recordFailure_trips_exactly_at_max_witness :
    0 < 3
    ∧ (IncrementAgentFailureCount (afterFailures 3 2) 3).2.2 = true
    ∧ (IncrementAgentFailureCount (afterFailures 3 2) 3).1.circuitState = "open" :=
  ⟨by decide, (recordFailure_trips_exactly_at_max 3 (by decide)).2.1,
    (recordFailure_trips_exactly_at_max 3 (by decide)).2.2⟩

end Gastown
